import Mathlib

/-!
Shallow embedding of the socialbook Django application (`src/core/views.py`)
and proofs about its request handlers.

The handlers in `core/views.py` are modelled as pure functions on an explicit
state `St` (the relational store plus the session and the message list).  The
model classes (`core/models.py` is not part of the provided source) are
modelled from the spec's data-model section.
-/

namespace SocialBook

/-- Modelled from the spec: `core/models.py` is missing from the source, so the
User identity record follows §3 — unique username, unique email, and an opaque
password credential (hashing is delegated to the identity service, so the
stored credential is treated as an opaque string). -/
structure User where
  username : String
  email : String
  password : String
deriving DecidableEq

/-- Modelled from the spec: `core/models.py` is missing from the source, so the
Profile record follows §3 — owned by a user (stored by username here), avatar
image reference with a default placeholder, optional bio and location. -/
structure Profile where
  user : String
  profileimg : String
  bio : String
  location : String
deriving DecidableEq

/-- Modelled from the spec: `core/models.py` is missing from the source, so the
Post record follows §3 — author username (a loose string, not a foreign key),
required image reference, caption, and a like counter defaulting to 0.  The
counter is an `Int` because the handlers update it by plain integer
arithmetic. -/
structure Post where
  id : Nat
  user : String
  image : String
  caption : String
  no_of_likes : Int
deriving DecidableEq

/-- Modelled from the spec: `core/models.py` is missing from the source, so the
Like record (`LikePost` in the source) follows §3 — a (post reference,
username) pair whose existence means "user has liked post". -/
structure LikePost where
  post_id : Nat
  username : String
deriving DecidableEq

/-- The relational store: the four tables, each in insertion (primary-key)
order, plus the counter the store uses to assign fresh post ids. -/
structure DB where
  users : List User
  profiles : List Profile
  posts : List Post
  likes : List LikePost
  nextPostId : Nat
deriving DecidableEq

/-- Request-handling state: the store, the session (the authenticated user's
name, if any), and the accumulated user-visible messages
(`django.contrib.messages`). -/
structure St where
  db : DB
  session : Option String
  msgs : List String
deriving DecidableEq

/-- Outcome of one request: a redirect, a rendered page, or an unhandled
exception propagating out of the handler (a server error). -/
inductive HResult where
  | redirect (target : String)
  | render (page : String)
  | crash (msg : String)
deriving DecidableEq

/-- `Post.objects.get(id=post_id)`: the post with the given primary key, if
any. -/
def findPost (db : DB) (post_id : Nat) : Option Post :=
  db.posts.find? (fun p => p.id == post_id)

/-- `LikePost.objects.filter(post_id=post_id, username=username).first()`:
the first matching Like record in primary-key order, or `none`. -/
def likeFilter (db : DB) (post_id : Nat) (username : String) : Option LikePost :=
  db.likes.find? (fun l => l.post_id == post_id && l.username == username)

/-- `post.save()` on a fetched and modified post object: write the row back,
replacing the stored row with the same primary key. -/
def savePost (posts : List Post) (p : Post) : List Post :=
  posts.map (fun q => if q.id == p.id then p else q)

/-- Number of Like records for a given (user, post) pair. -/
def countLikes (db : DB) (username : String) (post_id : Nat) : Nat :=
  (db.likes.filter (fun l => l.post_id == post_id && l.username == username)).length

/-- Number of Like records referencing a given post. -/
def likesOfPost (db : DB) (post_id : Nat) : Nat :=
  (db.likes.filter (fun l => l.post_id == post_id)).length

/-- Number of Profile records owned by a given user. -/
def countProfiles (db : DB) (username : String) : Nat :=
  (db.profiles.filter (fun p => p.user == username)).length

/-- Modelled from the spec: the empty Profile created at signup or lazily at
settings — the avatar gets the default placeholder, bio and location start
empty (`core/models.py` is missing from the source). -/
def emptyProfile (username : String) : Profile :=
  { user := username, profileimg := "placeholder", bio := "", location := "" }

/-- `index`: the home-feed view.  Gated by `login_required(login_url='signin')`;
fetches the session user's User row and Profile row (either `get` raises if no
unique row exists) and renders the feed.  No mutation on any path. -/
def index (st : St) : St × HResult :=
  match st.session with
  | none => (st, .redirect "signin")
  | some username =>
    match st.db.users.find? (fun u => u.username == username) with
    | none => (st, .crash "User matching query does not exist.")
    | some _ =>
      match st.db.profiles.filter (fun p => p.user == username) with
      | [] => (st, .crash "Profile matching query does not exist.")
      | [_] => (st, .render "index.html")
      | _ => (st, .crash "get() returned more than one Profile")

/-- `like_post`: the like/unlike toggle.  Gated by `login_required`; fetches
the post by the `post_id` query parameter (`Post.objects.get` raises an
unhandled `DoesNotExist` if absent), then branches on
`LikePost.objects.filter(...).first()`: if `None`, create a Like record and
increment the post's counter; otherwise delete that record and decrement the
counter.  Redirects to `/` in both cases. -/
def like_post (st : St) (post_id : Nat) : St × HResult :=
  match st.session with
  | none => (st, .redirect "signin")
  | some username =>
    match findPost st.db post_id with
    | none => (st, .crash "Post matching query does not exist.")
    | some post =>
      match likeFilter st.db post_id username with
      | none =>
        let newLike : LikePost := { post_id := post_id, username := username }
        let db1 := { st.db with likes := st.db.likes ++ [newLike] }
        let post2 := { post with no_of_likes := post.no_of_likes + 1 }
        let db2 := { db1 with posts := savePost db1.posts post2 }
        ({ st with db := db2 }, .redirect "/")
      | some _ =>
        let db1 := { st.db with
          likes := st.db.likes.eraseP
            (fun l => l.post_id == post_id && l.username == username) }
        let post2 := { post with no_of_likes := post.no_of_likes - 1 }
        let db2 := { db1 with posts := savePost db1.posts post2 }
        ({ st with db := db2 }, .redirect "/")

/-- Form fields of a signup POST submission. -/
structure SignupForm where
  username : String
  email : String
  password : String
  password2 : String

/-- `signup`: on POST, checks password = confirmation first, then duplicate
email, then duplicate username; each failure records a message and redirects
back to signup.  Otherwise it creates the User, logs the new user in, creates
an empty Profile and redirects to settings.  A GET renders the signup page. -/
def signup (st : St) (form : Option SignupForm) : St × HResult :=
  match form with
  | none => (st, .render "signup.html")
  | some f =>
    if f.password == f.password2 then
      if st.db.users.any (fun u => u.email == f.email) then
        ({ st with msgs := st.msgs ++ ["This email already exists"] }, .redirect "signup")
      else if st.db.users.any (fun u => u.username == f.username) then
        ({ st with msgs := st.msgs ++ ["Username is taken"] }, .redirect "signup")
      else
        let user : User := { username := f.username, email := f.email, password := f.password }
        let db1 := { st.db with users := st.db.users ++ [user] }
        let db2 := { db1 with profiles := db1.profiles ++ [emptyProfile f.username] }
        ({ st with db := db2, session := some f.username }, .redirect "settings")
    else
      ({ st with msgs := st.msgs ++ ["Password Not Matching"] }, .redirect "signup")

/-- Form fields of a signin POST submission. -/
structure SigninForm where
  username : String
  password : String

/-- `signin`: on POST, `auth.authenticate` then `auth.login` on success and a
redirect to `/`; on failure a message and a redirect back to signin.  A GET
renders the signin page. -/
def signin (st : St) (form : Option SigninForm) : St × HResult :=
  match form with
  | none => (st, .render "signin.html")
  | some f =>
    match st.db.users.find? (fun u => u.username == f.username && u.password == f.password) with
    | some _ => ({ st with session := some f.username }, .redirect "/")
    | none => ({ st with msgs := st.msgs ++ ["Credentials Invalid"] }, .redirect "/signin")

/-- `logout`: tear down the session unconditionally and redirect to signin. -/
def logout (st : St) : St × HResult :=
  ({ st with session := none }, .redirect "signin")

/-- Form fields of a settings POST submission.  A `none` avatar means no file
was submitted, in which case the bound form keeps the stored value. -/
structure SettingsForm where
  profileimg : Option String
  bio : String
  location : String

/-- Shared tail of the `settings` view once the profile row is at hand: a GET
renders the page; a POST binds the form against the existing profile, saves it
and self-redirects. -/
def settingsSave (st : St) (username : String) (prof : Profile)
    (form : Option SettingsForm) : St × HResult :=
  match form with
  | none => (st, .render "setting.html")
  | some f =>
    let prof2 : Profile := { user := username,
                             profileimg := f.profileimg.getD prof.profileimg,
                             bio := f.bio, location := f.location }
    let db2 := { st.db with
      profiles := st.db.profiles.map (fun q => if q.user == username then prof2 else q) }
    ({ st with db := db2 }, .redirect "settings")

/-- `settings`: gated by `login_required`; `Profile.objects.get(user=...)`
with the `DoesNotExist` case caught (a missing profile is created on the fly)
but `MultipleObjectsReturned` uncaught, then the GET/POST form handling. -/
def settings (st : St) (form : Option SettingsForm) : St × HResult :=
  match st.session with
  | none => (st, .redirect "signin")
  | some username =>
    match st.db.profiles.filter (fun p => p.user == username) with
    | [] =>
      let prof := emptyProfile username
      let db1 := { st.db with profiles := st.db.profiles ++ [prof] }
      settingsSave { st with db := db1 } username prof form
    | [p] => settingsSave st username p form
    | _ => (st, .crash "get() returned more than one Profile")

/-- Form fields of an upload POST submission.  `image_upload` is
`request.FILES.get('image_upload')`, which is `None` when no file is sent. -/
structure UploadForm where
  image_upload : Option String
  caption : String

/-- `upload`: gated by `login_required`; on POST creates a Post owned by the
session's username with the submitted image and caption and a like counter of
0, then redirects to `/`.  A GET simply redirects to `/`.  Modelled from the
spec for the missing-image case: the image reference is a required field of
the missing `core/models.py`, so storing a null image violates the store's
constraint and the request fails as an unhandled error. -/
def upload (st : St) (form : Option UploadForm) : St × HResult :=
  match st.session with
  | none => (st, .redirect "signin")
  | some username =>
    match form with
    | none => (st, .redirect "/")
    | some f =>
      match f.image_upload with
      | none => (st, .crash "NOT NULL constraint failed: core_post.image")
      | some img =>
        let post : Post := { id := st.db.nextPostId, user := username, image := img,
                             caption := f.caption, no_of_likes := 0 }
        let db2 := { st.db with nextPostId := st.db.nextPostId + 1,
                                posts := st.db.posts ++ [post] }
        ({ st with db := db2 }, .redirect "/")

/-- Initial state: empty store, no session, no messages. -/
def st0 : St :=
  { db := { users := [], profiles := [], posts := [], likes := [], nextPostId := 0 },
    session := none, msgs := [] }

/-- One request: any entry point invoked with any input.  The resulting state
is kept whether the request redirected, rendered or crashed (every crash in
the handlers above occurs before any write, so the returned state is the
store's state at the point of failure). -/
inductive Step : St → St → Prop where
  | rIndex : ∀ st, Step st (index st).1
  | rLike : ∀ st pid, Step st (like_post st pid).1
  | rSignup : ∀ st form, Step st (signup st form).1
  | rSignin : ∀ st form, Step st (signin st form).1
  | rLogout : ∀ st, Step st (logout st).1
  | rSettings : ∀ st form, Step st (settings st form).1
  | rUpload : ∀ st form, Step st (upload st form).1

/-- States reachable by sequential execution of requests from the initial
state. -/
inductive Reachable : St → Prop where
  | init : Reachable st0
  | step : ∀ {st st'}, Reachable st → Step st st' → Reachable st'

/-- Invariant clause: at most one Like record per (user, post) pair. -/
def atMostOneLike (db : DB) : Prop :=
  ∀ username post_id, countLikes db username post_id ≤ 1

/-- Invariant clause: every Post's like counter equals the number of Like
records referencing it. -/
def countersMatch (db : DB) : Prop :=
  ∀ p ∈ db.posts, p.no_of_likes = (likesOfPost db p.id : Int)

/-- Auxiliary store well-formedness: post ids are distinct and below the
store's id counter, and every Like record references an existing post. -/
def StoreWF (db : DB) : Prop :=
  (db.posts.map (fun p => p.id)).Nodup ∧
  (∀ i ∈ db.posts.map (fun p => p.id), i < db.nextPostId) ∧
  (∀ l ∈ db.likes, l.post_id ∈ db.posts.map (fun p => p.id))

/-- The full store invariant. -/
def Inv (db : DB) : Prop := StoreWF db ∧ atMostOneLike db ∧ countersMatch db

/-- Concrete store used by witnesses: two users with profiles, one post by
"alice" with no likes yet. -/
def dbW : DB :=
  { users := [{ username := "alice", email := "alice@mail.example", password := "pw" },
              { username := "bob", email := "bob@mail.example", password := "pw2" }],
    profiles := [emptyProfile "alice", emptyProfile "bob"],
    posts := [{ id := 0, user := "alice", image := "img.png", caption := "hello",
                no_of_likes := 0 }],
    likes := [],
    nextPostId := 1 }

/-- Concrete state: the store above with "bob" authenticated. -/
def stW : St := { db := dbW, session := some "bob", msgs := [] }

/-- Concrete drifted store: two duplicate Like records for the same pair
("bob", post 0), counter 2. -/
def dbDrift : DB :=
  { dbW with
    likes := [{ post_id := 0, username := "bob" }, { post_id := 0, username := "bob" }],
    posts := [{ id := 0, user := "alice", image := "img.png", caption := "hello",
                no_of_likes := 2 }] }

/-- Concrete drifted state with "bob" authenticated. -/
def stDrift : St := { db := dbDrift, session := some "bob", msgs := [] }

/-- Overwriting a fetched row (`savePost`) does not change the sequence of
primary keys in the post table. -/
theorem savePost_map_id (posts : List Post) (p : Post) :
    (savePost posts p).map (fun q => q.id) = posts.map (fun q => q.id) := by
  unfold savePost
  rw [List.map_map]
  apply List.map_congr_left
  intro a _
  by_cases ha : a.id = p.id <;> simp [ha]

/-- Fetching by primary key after `savePost` returns the written row, when a
row with that key was there before. -/
theorem find?_savePost (posts : List Post) (pid : Nat) (p2 post : Post)
    (h : posts.find? (fun q => q.id == pid) = some post) (h2 : p2.id = pid) :
    (savePost posts p2).find? (fun q => q.id == pid) = some p2 := by
  induction posts with
  | nil => simp at h
  | cons q qs ih =>
    by_cases hq : q.id = pid
    · have hcond : (q.id == p2.id) = true := by simp [h2, hq]
      have hpd : (p2.id == pid) = true := by simp [h2]
      simp only [savePost, List.map_cons]
      rw [if_pos hcond]
      exact List.find?_cons_of_pos _ hpd
    · rw [List.find?_cons_of_neg _ (by simp [hq])] at h
      simp only [savePost, List.map_cons] at ih ⊢
      rw [if_neg (by simp [h2, hq])]
      rw [List.find?_cons_of_neg _ (by simp [hq])]
      exact ih h

/-- Erasing the first record matching `p` leaves any `filter` untouched when
no record matching `p` can match the filter. -/
theorem filter_eraseP_of_neg {α : Type} (l : List α) (p pr : α → Bool)
    (hq : ∀ a, p a = true → pr a = false) :
    (l.eraseP p).filter pr = l.filter pr := by
  induction l with
  | nil => rfl
  | cons x xs ih =>
    by_cases hx : p x
    · simp [List.eraseP_cons_of_pos hx, List.filter_cons, hq x hx]
    · by_cases hpr : pr x <;>
        simp [List.eraseP_cons_of_neg hx, List.filter_cons, hpr, ih]

/-- Erasing the first record matching `p` shortens any `filter` that subsumes
`p` by exactly one, when a record matching `p` is present. -/
theorem length_filter_eraseP_of_imp {α : Type} (l : List α) (p pr : α → Bool)
    (h : ∃ a ∈ l, p a) (himp : ∀ a, p a = true → pr a = true) :
    ((l.eraseP p).filter pr).length = (l.filter pr).length - 1 := by
  obtain ⟨a, ha, hpa⟩ := h
  obtain ⟨a', l1, l2, hl1, hpa', hdecomp, herase⟩ := List.exists_of_eraseP ha hpa
  rw [herase, hdecomp]
  simp [List.filter_append, List.filter_cons, himp a' hpa']

/-- A record matching `p` being present makes any subsuming `filter`
nonempty. -/
theorem one_le_length_filter_of_imp {α : Type} (l : List α) (p pr : α → Bool)
    (h : ∃ a ∈ l, p a) (himp : ∀ a, p a = true → pr a = true) :
    1 ≤ (l.filter pr).length := by
  obtain ⟨a, ha, hpa⟩ := h
  have : a ∈ l.filter pr := List.mem_filter.mpr ⟨ha, himp a hpa⟩
  exact List.length_pos_of_mem this

/-- A zero pair count means the like lookup finds nothing. -/
theorem likeFilter_eq_none_of_countLikes_zero (db : DB) (u : String) (pid : Nat)
    (h : countLikes db u pid = 0) : likeFilter db pid u = none := by
  unfold likeFilter
  rw [List.find?_eq_none]
  intro x hx hpx
  unfold countLikes at h
  rw [List.length_eq_zero] at h
  have : x ∈ db.likes.filter (fun l => l.post_id == pid && l.username == u) :=
    List.mem_filter.mpr ⟨hx, hpx⟩
  simp [h] at this

/-- A positive pair count means the like lookup finds a record. -/
theorem likeFilter_isSome_of_countLikes_pos (db : DB) (u : String) (pid : Nat)
    (h : 1 ≤ countLikes db u pid) : ∃ lk, likeFilter db pid u = some lk := by
  unfold countLikes at h
  have hne : db.likes.filter (fun l => l.post_id == pid && l.username == u) ≠ [] := by
    intro hnil
    rw [hnil] at h
    simp at h
  obtain ⟨x, hx⟩ := List.exists_mem_of_ne_nil _ hne
  have hx' := List.mem_filter.mp hx
  have : (likeFilter db pid u).isSome := by
    unfold likeFilter
    rw [List.find?_isSome]
    exact ⟨x, hx'.1, hx'.2⟩
  exact Option.isSome_iff_exists.mp this

/-- Characterization of the NOT_LIKED → LIKED branch of `like_post`: a new
Like row is appended and the fetched post is written back with its counter
incremented. -/
theorem like_post_of_not_liked (st : St) (u : String) (pid : Nat) (post : Post)
    (hs : st.session = some u) (hp : findPost st.db pid = some post)
    (hlf : likeFilter st.db pid u = none) :
    like_post st pid
      = ({ st with db := { st.db with
             likes := st.db.likes ++ [{ post_id := pid, username := u }],
             posts := savePost st.db.posts
               { post with no_of_likes := post.no_of_likes + 1 } } },
         HResult.redirect "/") := by
  simp [like_post, hs, hp, hlf, savePost]

/-- Characterization of the LIKED → NOT_LIKED branch of `like_post`: the first
matching Like row is erased and the fetched post is written back with its
counter decremented. -/
theorem like_post_of_liked (st : St) (u : String) (pid : Nat) (post : Post)
    (lk : LikePost)
    (hs : st.session = some u) (hp : findPost st.db pid = some post)
    (hlf : likeFilter st.db pid u = some lk) :
    like_post st pid
      = ({ st with db := { st.db with
             likes := st.db.likes.eraseP
               (fun l => l.post_id == pid && l.username == u),
             posts := savePost st.db.posts
               { post with no_of_likes := post.no_of_likes - 1 } } },
         HResult.redirect "/") := by
  simp [like_post, hs, hp, hlf, savePost]

/-- C8: an unauthenticated request to any gated entry point — home, like,
settings or upload — redirects to signin and leaves the whole state (store,
session and messages) unchanged. -/
theorem unauthenticated_gated_redirects (st : St) (pid : Nat)
    (sform : Option SettingsForm) (uform : Option UploadForm)
    (hs : st.session = none) :
    index st = (st, HResult.redirect "signin") ∧
    like_post st pid = (st, HResult.redirect "signin") ∧
    settings st sform = (st, HResult.redirect "signin") ∧
    upload st uform = (st, HResult.redirect "signin") := by
  refine ⟨?_, ?_, ?_, ?_⟩ <;> simp [index, like_post, settings, upload, hs]

/-- Witness: the unauthenticated-redirect theorem applied at a concrete
signed-out state. -/
theorem unauthenticated_gated_redirects_witness :
    index { stW with session := none }
        = ({ stW with session := none }, HResult.redirect "signin") ∧
    like_post { stW with session := none } 0
        = ({ stW with session := none }, HResult.redirect "signin") ∧
    settings { stW with session := none } none
        = ({ stW with session := none }, HResult.redirect "signin") ∧
    upload { stW with session := none } none
        = ({ stW with session := none }, HResult.redirect "signin") :=
  unauthenticated_gated_redirects { stW with session := none } 0 none none rfl

/-- C6: an authenticated like request naming a post id that does not exist
crashes with the unhandled lookup failure and leaves the state untouched. -/
theorem like_missing_post_crashes (st : St) (u : String) (pid : Nat)
    (hs : st.session = some u) (hp : findPost st.db pid = none) :
    (like_post st pid).1 = st ∧
    (like_post st pid).2 = HResult.crash "Post matching query does not exist." := by
  simp [like_post, hs, hp]

/-- Witness: the missing-post crash theorem applied at a concrete state and a
post id (5) that names no post. -/
theorem like_missing_post_crashes_witness :
    (like_post stW 5).1 = stW ∧
    (like_post stW 5).2 = HResult.crash "Post matching query does not exist." :=
  like_missing_post_crashes stW "bob" 5 rfl (by decide)

/-- C9: an authenticated upload POST carrying an image creates exactly one
Post, owned by the session's username, with that (non-null) image, the given
caption and a like counter of 0, then redirects to home. -/
theorem upload_creates_post (st : St) (u : String) (f : UploadForm) (img : String)
    (hs : st.session = some u) (hi : f.image_upload = some img) :
    (upload st (some f)).1.db.posts
        = st.db.posts ++ [{ id := st.db.nextPostId, user := u, image := img,
                            caption := f.caption, no_of_likes := 0 }] ∧
    (upload st (some f)).2 = HResult.redirect "/" := by
  simp [upload, hs, hi]

/-- Witness: the upload theorem applied at a concrete state and form. -/
theorem upload_creates_post_witness :
    (upload stW (some { image_upload := some "cat.png", caption := "my cat" })).1.db.posts
        = stW.db.posts ++ [{ id := stW.db.nextPostId, user := "bob", image := "cat.png",
                             caption := "my cat", no_of_likes := 0 }] ∧
    (upload stW (some { image_upload := some "cat.png", caption := "my cat" })).2
        = HResult.redirect "/" :=
  upload_creates_post stW "bob" { image_upload := some "cat.png", caption := "my cat" }
    "cat.png" rfl rfl

/-- C4: a signup POST with matching passwords and an unused email and username
creates exactly one new User (appended to the user table) and exactly one new
Profile owned by it, authenticates the new user, and redirects to settings. -/
theorem signup_success (st : St) (f : SignupForm)
    (hpw : f.password = f.password2)
    (he : st.db.users.any (fun u => u.email == f.email) = false)
    (hu : st.db.users.any (fun u => u.username == f.username) = false) :
    (signup st (some f)).1.db.users
        = st.db.users ++ [{ username := f.username, email := f.email,
                            password := f.password }] ∧
    (signup st (some f)).1.db.profiles = st.db.profiles ++ [emptyProfile f.username] ∧
    (signup st (some f)).1.session = some f.username ∧
    (signup st (some f)).2 = HResult.redirect "settings" := by
  simp [signup, hpw, he, hu]

/-- Witness: the signup-success theorem applied at a concrete state and a
fresh account "carol". -/
theorem signup_success_witness :
    (signup stW (some { username := "carol", email := "carol@mail.example",
                        password := "s3cret", password2 := "s3cret" })).1.db.users
        = stW.db.users ++ [{ username := "carol", email := "carol@mail.example",
                             password := "s3cret" }] ∧
    (signup stW (some { username := "carol", email := "carol@mail.example",
                        password := "s3cret", password2 := "s3cret" })).1.db.profiles
        = stW.db.profiles ++ [emptyProfile "carol"] ∧
    (signup stW (some { username := "carol", email := "carol@mail.example",
                        password := "s3cret", password2 := "s3cret" })).1.session
        = some "carol" ∧
    (signup stW (some { username := "carol", email := "carol@mail.example",
                        password := "s3cret", password2 := "s3cret" })).2
        = HResult.redirect "settings" :=
  signup_success stW { username := "carol", email := "carol@mail.example",
                       password := "s3cret", password2 := "s3cret" }
    rfl (by decide) (by decide)

/-- C5: the signup failure checks apply in order — password mismatch first
(regardless of duplicates), then duplicate email (regardless of a duplicate
username), then duplicate username — and every failing branch records its
message, redirects back to signup, and leaves the store untouched. -/
theorem signup_failure_order (st : St) (f : SignupForm) :
    (f.password ≠ f.password2 →
       (signup st (some f)).1.db = st.db ∧
       (signup st (some f)).1.msgs = st.msgs ++ ["Password Not Matching"] ∧
       (signup st (some f)).2 = HResult.redirect "signup") ∧
    (f.password = f.password2 →
     st.db.users.any (fun u => u.email == f.email) = true →
       (signup st (some f)).1.db = st.db ∧
       (signup st (some f)).1.msgs = st.msgs ++ ["This email already exists"] ∧
       (signup st (some f)).2 = HResult.redirect "signup") ∧
    (f.password = f.password2 →
     st.db.users.any (fun u => u.email == f.email) = false →
     st.db.users.any (fun u => u.username == f.username) = true →
       (signup st (some f)).1.db = st.db ∧
       (signup st (some f)).1.msgs = st.msgs ++ ["Username is taken"] ∧
       (signup st (some f)).2 = HResult.redirect "signup") := by
  refine ⟨fun h1 => ?_, fun h1 h2 => ?_, fun h1 h2 h3 => ?_⟩ <;>
    simp [signup, beq_iff_eq, *]

/-- Witness: the failure-order theorem at a concrete state, first branch — the
submitted email and username are both already taken, yet the mismatch wins. -/
theorem signup_failure_order_witness :
    (signup stW (some { username := "alice", email := "alice@mail.example",
                        password := "a", password2 := "b" })).1.db = stW.db ∧
    (signup stW (some { username := "alice", email := "alice@mail.example",
                        password := "a", password2 := "b" })).1.msgs
        = stW.msgs ++ ["Password Not Matching"] ∧
    (signup stW (some { username := "alice", email := "alice@mail.example",
                        password := "a", password2 := "b" })).2
        = HResult.redirect "signup" :=
  (signup_failure_order stW { username := "alice", email := "alice@mail.example",
                              password := "a", password2 := "b" }).1 (by decide)

/-- The post stored in `dbW`. -/
def post0W : Post :=
  { id := 0, user := "alice", image := "img.png", caption := "hello", no_of_likes := 0 }

/-- The post stored in `dbDrift`. -/
def post0D : Post :=
  { id := 0, user := "alice", image := "img.png", caption := "hello", no_of_likes := 2 }

/-- C1: for an authenticated user and an existing post, a single like request
redirects to home and performs exactly one of the two transitions, decided by
the Like lookup at the moment of the request: with no Like record it appends
exactly one Like record and writes the post back with its counter incremented
by 1; with a Like record present it erases the first matching record and
writes the post back with its counter decremented by 1. -/
theorem like_post_toggle (st : St) (u : String) (pid : Nat) (post : Post)
    (hs : st.session = some u) (hp : findPost st.db pid = some post) :
    (like_post st pid).2 = HResult.redirect "/" ∧
    (likeFilter st.db pid u = none →
      (like_post st pid).1.db.likes
          = st.db.likes ++ [{ post_id := pid, username := u }] ∧
      findPost (like_post st pid).1.db pid
          = some { post with no_of_likes := post.no_of_likes + 1 }) ∧
    (∀ lk, likeFilter st.db pid u = some lk →
      (like_post st pid).1.db.likes
          = st.db.likes.eraseP (fun l => l.post_id == pid && l.username == u) ∧
      findPost (like_post st pid).1.db pid
          = some { post with no_of_likes := post.no_of_likes - 1 }) := by
  have hp' : st.db.posts.find? (fun q => q.id == pid) = some post := hp
  have hpid : post.id = pid := by simpa using List.find?_some hp'
  cases hlf : likeFilter st.db pid u with
  | none =>
    rw [like_post_of_not_liked st u pid post hs hp hlf]
    refine ⟨rfl, fun _ => ⟨rfl, find?_savePost st.db.posts pid _ post hp' hpid⟩,
            fun lk hlk => ?_⟩
    simp at hlk
  | some lk =>
    rw [like_post_of_liked st u pid post lk hs hp hlf]
    refine ⟨rfl, fun hn => ?_,
            fun lk' _ => ⟨rfl, find?_savePost st.db.posts pid _ post hp' hpid⟩⟩
    simp at hn

/-- Witness: the toggle theorem at a concrete state where "bob" has not yet
liked post 0 — the NOT_LIKED branch fires. -/
theorem like_post_toggle_witness :
    (like_post stW 0).2 = HResult.redirect "/" ∧
    (like_post stW 0).1.db.likes
        = stW.db.likes ++ [{ post_id := 0, username := "bob" }] ∧
    findPost (like_post stW 0).1.db 0
        = some { post0W with no_of_likes := post0W.no_of_likes + 1 } := by
  have h := like_post_toggle stW "bob" 0 post0W rfl rfl
  exact ⟨h.1, (h.2.1 rfl).1, (h.2.1 rfl).2⟩

/-- C2: liking then unliking the same (user, post) pair, starting with no Like
record for the pair, leaves zero Like records for the pair, returns the post's
like counter to its original value, and in fact restores the Like table
exactly. -/
theorem like_unlike_roundtrip (st : St) (u : String) (pid : Nat) (post : Post)
    (hs : st.session = some u) (hp : findPost st.db pid = some post)
    (h0 : countLikes st.db u pid = 0) :
    countLikes (like_post (like_post st pid).1 pid).1.db u pid = 0 ∧
    (findPost (like_post (like_post st pid).1 pid).1.db pid).map
        (fun p => p.no_of_likes) = some post.no_of_likes ∧
    (like_post (like_post st pid).1 pid).1.db.likes = st.db.likes := by
  have hp' : st.db.posts.find? (fun q => q.id == pid) = some post := hp
  have hpid : post.id = pid := by simpa using List.find?_some hp'
  have hlf := likeFilter_eq_none_of_countLikes_zero st.db u pid h0
  have hnomatch : ∀ b ∈ st.db.likes,
      ¬((fun l => l.post_id == pid && l.username == u) b = true) := by
    intro b hb hpb
    unfold countLikes at h0
    rw [List.length_eq_zero] at h0
    have : b ∈ st.db.likes.filter (fun l => l.post_id == pid && l.username == u) :=
      List.mem_filter.mpr ⟨hb, hpb⟩
    simp [h0] at this
  have h1 := like_post_of_not_liked st u pid post hs hp hlf
  have hs1 : (like_post st pid).1.session = some u := by rw [h1]; exact hs
  have hp1 : findPost (like_post st pid).1.db pid
      = some { post with no_of_likes := post.no_of_likes + 1 } := by
    rw [h1]
    exact find?_savePost st.db.posts pid _ post hp' hpid
  have hlf1 : likeFilter (like_post st pid).1.db pid u
      = some { post_id := pid, username := u } := by
    rw [h1]
    show List.find? _ (st.db.likes ++ [{ post_id := pid, username := u }]) = _
    rw [List.find?_append, List.find?_eq_none.mpr hnomatch]
    simp
  have h2 := like_post_of_liked (like_post st pid).1 u pid
    { post with no_of_likes := post.no_of_likes + 1 }
    { post_id := pid, username := u } hs1 hp1 hlf1
  have hlikes1 : (like_post st pid).1.db.likes
      = st.db.likes ++ [{ post_id := pid, username := u }] := by rw [h1]
  have hlikes2 : (like_post (like_post st pid).1 pid).1.db.likes = st.db.likes := by
    rw [h2]
    show ((like_post st pid).1.db.likes).eraseP _ = st.db.likes
    rw [hlikes1, List.eraseP_append_right _ hnomatch]
    simp
  refine ⟨?_, ?_, hlikes2⟩
  · show ((like_post (like_post st pid).1 pid).1.db.likes.filter _).length = 0
    rw [hlikes2]
    exact h0
  · have hp2 : findPost (like_post (like_post st pid).1 pid).1.db pid
        = some { post with no_of_likes := post.no_of_likes + 1 - 1 } := by
      rw [h2]
      exact find?_savePost (like_post st pid).1.db.posts pid _ _ hp1 hpid
    rw [hp2]
    simp

/-- Witness: the like-then-unlike roundtrip at a concrete state, realizing the
spec's example — "bob" toggles "alice"'s post twice and the counter returns
to 0 with no Like record left. -/
theorem like_unlike_roundtrip_witness :
    countLikes (like_post (like_post stW 0).1 0).1.db "bob" 0 = 0 ∧
    (findPost (like_post (like_post stW 0).1 0).1.db 0).map
        (fun p => p.no_of_likes) = some post0W.no_of_likes ∧
    (like_post (like_post stW 0).1 0).1.db.likes = stW.db.likes :=
  like_unlike_roundtrip stW "bob" 0 post0W rfl rfl rfl

/-- C10: in a drifted state with at least two Like records for the same
(user, post) pair, a single unlike request erases only the first matching
record — the pair count drops by exactly one and at least one duplicate
remains — and decrements the post's counter by exactly 1. -/
theorem unlike_removes_first_duplicate (st : St) (u : String) (pid : Nat) (post : Post)
    (hs : st.session = some u) (hp : findPost st.db pid = some post)
    (h2 : 2 ≤ countLikes st.db u pid) :
    (like_post st pid).1.db.likes
        = st.db.likes.eraseP (fun l => l.post_id == pid && l.username == u) ∧
    countLikes (like_post st pid).1.db u pid = countLikes st.db u pid - 1 ∧
    1 ≤ countLikes (like_post st pid).1.db u pid ∧
    findPost (like_post st pid).1.db pid
        = some { post with no_of_likes := post.no_of_likes - 1 } := by
  have hp' : st.db.posts.find? (fun q => q.id == pid) = some post := hp
  have hpid : post.id = pid := by simpa using List.find?_some hp'
  obtain ⟨lk, hlf⟩ := likeFilter_isSome_of_countLikes_pos st.db u pid (by omega)
  have hlf' : st.db.likes.find? (fun l => l.post_id == pid && l.username == u)
      = some lk := hlf
  have hmem : ∃ a ∈ st.db.likes,
      (fun l : LikePost => l.post_id == pid && l.username == u) a = true := by
    refine ⟨lk, List.mem_of_find?_eq_some hlf', ?_⟩
    simpa using List.find?_some hlf'
  have h1 := like_post_of_liked st u pid post lk hs hp hlf
  have hcount : countLikes (like_post st pid).1.db u pid
      = countLikes st.db u pid - 1 := by
    rw [h1]
    exact length_filter_eraseP_of_imp _ _ _ hmem (fun a ha => ha)
  refine ⟨by rw [h1], hcount, ?_, ?_⟩
  · rw [hcount]
    omega
  · rw [h1]
    exact find?_savePost st.db.posts pid _ post hp' hpid

/-- Witness: the duplicate-unlike theorem at the concrete drifted state with
two Like records for ("bob", post 0). -/
theorem unlike_removes_first_duplicate_witness :
    (like_post stDrift 0).1.db.likes
        = stDrift.db.likes.eraseP (fun l => l.post_id == 0 && l.username == "bob") ∧
    countLikes (like_post stDrift 0).1.db "bob" 0 = countLikes stDrift.db "bob" 0 - 1 ∧
    1 ≤ countLikes (like_post stDrift 0).1.db "bob" 0 ∧
    findPost (like_post stDrift 0).1.db 0
        = some { post0D with no_of_likes := post0D.no_of_likes - 1 } :=
  unlike_removes_first_duplicate stDrift "bob" 0 post0D rfl rfl (by decide)

/-- A replacement write of the profile owned by `username` preserves the
number of profiles each user owns. -/
theorem length_filter_map_replace (l : List Profile) (username : String) (prof2 : Profile)
    (h : prof2.user = username) :
    ((l.map (fun q => if q.user == username then prof2 else q)).filter
        (fun p => p.user == username)).length
      = (l.filter (fun p => p.user == username)).length := by
  induction l with
  | nil => rfl
  | cons q qs ih =>
    simp only [List.map_cons, List.filter_cons]
    by_cases hq : (q.user == username) = true
    · rw [if_pos hq, if_pos hq]
      have hc2 : (prof2.user == username) = true := by simp [h]
      rw [if_pos hc2]
      simp only [List.length_cons]
      omega
    · rw [if_neg hq, if_neg hq, if_neg hq]
      exact ih

/-- The settings form handling never crashes. -/
theorem settingsSave_not_crash (st : St) (u : String) (p : Profile)
    (form : Option SettingsForm) (msg : String) :
    (settingsSave st u p form).2 ≠ HResult.crash msg := by
  cases form <;> simp [settingsSave]

/-- The settings form handling preserves the session user's profile count. -/
theorem settingsSave_countProfiles (st : St) (u : String) (p : Profile)
    (form : Option SettingsForm) :
    countProfiles (settingsSave st u p form).1.db u = countProfiles st.db u := by
  cases form with
  | none => rfl
  | some f => exact length_filter_map_replace st.db.profiles u _ rfl

/-- Characterization of `settings` when the session user has no profile row:
one is created on the fly and form handling proceeds against it. -/
theorem settings_eq_of_no_profile (st : St) (u : String) (form : Option SettingsForm)
    (hs : st.session = some u)
    (hfl : st.db.profiles.filter (fun p => p.user == u) = []) :
    settings st form
      = settingsSave
          { st with db := { st.db with profiles := st.db.profiles ++ [emptyProfile u] } }
          u (emptyProfile u) form := by
  simp [settings, hs, hfl]

/-- Characterization of `settings` when the session user has exactly one
profile row: form handling proceeds against it. -/
theorem settings_eq_of_one_profile (st : St) (u : String) (p : Profile)
    (form : Option SettingsForm) (hs : st.session = some u)
    (hfl : st.db.profiles.filter (fun q => q.user == u) = [p]) :
    settings st form = settingsSave st u p form := by
  simp [settings, hs, hfl]

/-- C7: for an authenticated user with at most one profile row (as in every
state the app itself produces), a settings request never crashes — a missing
profile is created on the fly — and afterwards the user owns exactly one
profile row, on GET and POST alike. -/
theorem settings_provisions_profile (st : St) (u : String) (form : Option SettingsForm)
    (hs : st.session = some u) (hle : countProfiles st.db u ≤ 1) :
    (∀ msg, (settings st form).2 ≠ HResult.crash msg) ∧
    countProfiles (settings st form).1.db u = 1 := by
  cases hfl : st.db.profiles.filter (fun p => p.user == u) with
  | nil =>
    rw [settings_eq_of_no_profile st u form hs hfl]
    refine ⟨fun msg => settingsSave_not_crash _ u _ form msg, ?_⟩
    rw [settingsSave_countProfiles]
    show ((st.db.profiles ++ [emptyProfile u]).filter (fun p => p.user == u)).length = 1
    rw [List.filter_append, hfl]
    simp [emptyProfile]
  | cons p ps =>
    cases ps with
    | nil =>
      rw [settings_eq_of_one_profile st u p form hs hfl]
      refine ⟨fun msg => settingsSave_not_crash _ u _ form msg, ?_⟩
      rw [settingsSave_countProfiles]
      show (st.db.profiles.filter (fun p => p.user == u)).length = 1
      rw [hfl]
      rfl
    | cons q qs =>
      exfalso
      unfold countProfiles at hle
      rw [hfl] at hle
      simp at hle

/-- Witness: the settings theorem at a concrete state where the session user
"dave" is authenticated but has no profile row yet. -/
theorem settings_provisions_profile_witness :
    (∀ msg, (settings { stW with session := some "dave" } none).2 ≠ HResult.crash msg) ∧
    countProfiles (settings { stW with session := some "dave" } none).1.db "dave" = 1 :=
  settings_provisions_profile { stW with session := some "dave" } "dave" none rfl
    (by decide)

/-- The store invariant only reads the post table, the like table and the id
counter. -/
theorem inv_congr (db db' : DB) (hp : db'.posts = db.posts) (hl : db'.likes = db.likes)
    (hn : db'.nextPostId = db.nextPostId) (h : Inv db) : Inv db' := by
  unfold Inv StoreWF atMostOneLike countersMatch countLikes likesOfPost at h ⊢
  rw [hp, hl, hn]
  exact h

/-- The feed view never writes. -/
theorem index_fst (st : St) : (index st).1 = st := by
  cases hss : st.session with
  | none => simp [index, hss]
  | some u =>
    cases hf : st.db.users.find? (fun x => x.username == u) with
    | none => simp [index, hss, hf]
    | some w =>
      cases hfl : st.db.profiles.filter (fun p => p.user == u) with
      | nil => simp [index, hss, hf, hfl]
      | cons p ps =>
        cases ps with
        | nil => simp [index, hss, hf, hfl]
        | cons q qs => simp [index, hss, hf, hfl]

/-- Signin never writes to the store. -/
theorem signin_db (st : St) (form : Option SigninForm) : (signin st form).1.db = st.db := by
  cases form with
  | none => rfl
  | some f =>
    cases hf : st.db.users.find?
        (fun u => u.username == f.username && u.password == f.password) with
    | none => simp [signin, hf]
    | some w => simp [signin, hf]

/-- Logout never writes to the store. -/
theorem logout_db (st : St) : (logout st).1.db = st.db := rfl

/-- Signup only writes the user and profile tables. -/
theorem signup_db_frame (st : St) (form : Option SignupForm) :
    (signup st form).1.db.posts = st.db.posts ∧
    (signup st form).1.db.likes = st.db.likes ∧
    (signup st form).1.db.nextPostId = st.db.nextPostId := by
  cases form with
  | none => exact ⟨rfl, rfl, rfl⟩
  | some f =>
    by_cases h1 : (f.password == f.password2) = true
    · by_cases h2 : (st.db.users.any (fun u => u.email == f.email)) = true
      · simp [signup, h1, h2]
      · by_cases h3 : (st.db.users.any (fun u => u.username == f.username)) = true
        · simp [signup, h1, h2, h3]
        · simp [signup, h1, h2, h3]
    · simp [signup, h1]

/-- The settings form handling only writes the profile table. -/
theorem settingsSave_db_frame (st : St) (u : String) (p : Profile)
    (form : Option SettingsForm) :
    (settingsSave st u p form).1.db.posts = st.db.posts ∧
    (settingsSave st u p form).1.db.likes = st.db.likes ∧
    (settingsSave st u p form).1.db.nextPostId = st.db.nextPostId := by
  cases form with
  | none => exact ⟨rfl, rfl, rfl⟩
  | some f => exact ⟨rfl, rfl, rfl⟩

/-- The settings view only writes the profile table. -/
theorem settings_db_frame (st : St) (form : Option SettingsForm) :
    (settings st form).1.db.posts = st.db.posts ∧
    (settings st form).1.db.likes = st.db.likes ∧
    (settings st form).1.db.nextPostId = st.db.nextPostId := by
  cases hss : st.session with
  | none => simp [settings, hss]
  | some u =>
    cases hfl : st.db.profiles.filter (fun p => p.user == u) with
    | nil =>
      rw [settings_eq_of_no_profile st u form hss hfl]
      exact settingsSave_db_frame
        { st with db := { st.db with profiles := st.db.profiles ++ [emptyProfile u] } }
        u (emptyProfile u) form
    | cons p ps =>
      cases ps with
      | nil =>
        rw [settings_eq_of_one_profile st u p form hss hfl]
        exact settingsSave_db_frame st u p form
      | cons q qs => simp [settings, hss, hfl]

/-- A lookup miss for the Like pair means the pair count is zero. -/
theorem countLikes_eq_zero_of_likeFilter_none (db : DB) (u : String) (pid : Nat)
    (h : likeFilter db pid u = none) : countLikes db u pid = 0 := by
  unfold likeFilter at h
  rw [List.find?_eq_none] at h
  unfold countLikes
  rw [List.length_eq_zero, List.filter_eq_nil_iff]
  exact h

/-- A filter misses a singleton whose element fails the predicate. -/
theorem filter_singleton_nil {α : Type} (a : α) (p : α → Bool) (h : p a = false) :
    [a].filter p = [] := by
  simp [List.filter_cons, h]

/-- Store well-formedness survives rewriting a fetched post row and replacing
the Like table by one that still references existing posts. -/
theorem storeWF_of_parts (db : DB) (L2 : List LikePost) (p2 : Post)
    (hwf : StoreWF db)
    (href2 : ∀ l ∈ L2, l.post_id ∈ db.posts.map (fun p => p.id)) :
    StoreWF { db with likes := L2, posts := savePost db.posts p2 } := by
  obtain ⟨hnd, hlt, href⟩ := hwf
  refine ⟨?_, ?_, ?_⟩
  · show ((savePost db.posts p2).map (fun p => p.id)).Nodup
    rw [savePost_map_id]
    exact hnd
  · show ∀ i ∈ (savePost db.posts p2).map (fun p => p.id), i < db.nextPostId
    rw [savePost_map_id]
    exact hlt
  · show ∀ l ∈ L2, l.post_id ∈ (savePost db.posts p2).map (fun p => p.id)
    rw [savePost_map_id]
    exact href2

/-- Counter accuracy survives rewriting the fetched post row with the exact
new count and a Like-table change that leaves every other post's count
alone. -/
theorem countersMatch_of_parts (db : DB) (L2 : List LikePost) (p2 : Post) (pid : Nat)
    (hpid : p2.id = pid) (hcm : countersMatch db)
    (hsame : ∀ q, q ≠ pid → (L2.filter (fun l => l.post_id == q)).length
        = (db.likes.filter (fun l => l.post_id == q)).length)
    (hnew : p2.no_of_likes = ((L2.filter (fun l => l.post_id == pid)).length : Int)) :
    countersMatch { db with likes := L2, posts := savePost db.posts p2 } := by
  intro p hp
  show p.no_of_likes = ((L2.filter (fun l => l.post_id == p.id)).length : Int)
  have hp' : p ∈ db.posts.map (fun q => if q.id == p2.id then p2 else q) := hp
  rcases List.mem_map.mp hp' with ⟨q, hq, hqe⟩
  by_cases hcase : (q.id == p2.id) = true
  · rw [if_pos hcase] at hqe
    subst hqe
    rw [hpid]
    exact hnew
  · rw [if_neg hcase] at hqe
    subst hqe
    have hqid : q.id ≠ pid := by
      intro hqq
      apply hcase
      simp [hqq, hpid]
    rw [hsame q.id hqid]
    exact hcm q hq

/-- The like/unlike toggle preserves the store invariant. -/
theorem like_preserves_inv (st : St) (pid : Nat) (h : Inv st.db) :
    Inv (like_post st pid).1.db := by
  cases hss : st.session with
  | none =>
    have he : (like_post st pid).1 = st := by simp [like_post, hss]
    rw [he]
    exact h
  | some u =>
    cases hfp : findPost st.db pid with
    | none =>
      have he : (like_post st pid).1 = st := by simp [like_post, hss, hfp]
      rw [he]
      exact h
    | some post =>
      have hp' : st.db.posts.find? (fun q => q.id == pid) = some post := hfp
      have hpid : post.id = pid := by simpa using List.find?_some hp'
      have hpostmem : post ∈ st.db.posts := List.mem_of_find?_eq_some hp'
      have hpidmem : pid ∈ st.db.posts.map (fun p => p.id) := by
        rw [← hpid]
        exact List.mem_map_of_mem _ hpostmem
      obtain ⟨hwf, h1, h2⟩ := h
      have hcnt : post.no_of_likes
          = ((st.db.likes.filter (fun l => l.post_id == pid)).length : Int) := by
        have := h2 post hpostmem
        rw [hpid] at this
        exact this
      cases hlf : likeFilter st.db pid u with
      | none =>
        rw [like_post_of_not_liked st u pid post hss hfp hlf]
        have hzero : countLikes st.db u pid = 0 :=
          countLikes_eq_zero_of_likeFilter_none st.db u pid hlf
        have hfilnil : st.db.likes.filter
            (fun l => l.post_id == pid && l.username == u) = [] := by
          unfold countLikes at hzero
          exact List.length_eq_zero.mp hzero
        refine ⟨storeWF_of_parts st.db _ _ hwf ?_, ?_, countersMatch_of_parts st.db _ _
          pid hpid h2 ?_ ?_⟩
        · intro l hl
          rcases List.mem_append.mp hl with h3 | h3
          · exact hwf.2.2 l h3
          · simp only [List.mem_singleton] at h3
            subst h3
            exact hpidmem
        · intro u' pid'
          show (((st.db.likes ++ [({ post_id := pid, username := u } : LikePost)]).filter
              (fun l => l.post_id == pid' && l.username == u')).length) ≤ 1
          rw [List.filter_append, List.length_append]
          cases hb : ((fun l : LikePost => l.post_id == pid' && l.username == u')
              ({ post_id := pid, username := u } : LikePost)) with
          | false =>
            rw [filter_singleton_nil ({ post_id := pid, username := u } : LikePost)
              (fun l => l.post_id == pid' && l.username == u') hb]
            have := h1 u' pid'
            unfold countLikes at this
            simpa using this
          | true =>
            have hb' := hb
            simp only [Bool.and_eq_true, beq_iff_eq] at hb'
            obtain ⟨hpp, huu⟩ := hb'
            subst hpp
            subst huu
            rw [hfilnil]
            have hle := List.length_filter_le
              (fun l : LikePost => l.post_id == pid && l.username == u)
              [({ post_id := pid, username := u } : LikePost)]
            simp only [List.length_nil, List.length_cons] at hle ⊢
            omega
        · intro q hq
          have hb : ((fun l : LikePost => l.post_id == q)
              ({ post_id := pid, username := u } : LikePost)) = false := by
            simp only [beq_eq_false_iff_ne]
            exact Ne.symm hq
          rw [List.filter_append, filter_singleton_nil
            ({ post_id := pid, username := u } : LikePost)
            (fun l => l.post_id == q) hb]
          simp
        · show post.no_of_likes + 1 = _
          rw [List.filter_append, List.length_append]
          have hone : (List.filter (fun l : LikePost => l.post_id == pid)
              [({ post_id := pid, username := u } : LikePost)]).length = 1 := by
            simp
          rw [hone, hcnt]
          push_cast
          ring
      | some lk =>
        rw [like_post_of_liked st u pid post lk hss hfp hlf]
        have hlf' : st.db.likes.find?
            (fun l => l.post_id == pid && l.username == u) = some lk := hlf
        have hmem : ∃ a ∈ st.db.likes,
            (fun l : LikePost => l.post_id == pid && l.username == u) a = true := by
          refine ⟨lk, List.mem_of_find?_eq_some hlf', ?_⟩
          simpa using List.find?_some hlf'
        have himp : ∀ a : LikePost,
            (a.post_id == pid && a.username == u) = true → (a.post_id == pid) = true := by
          intro a ha
          exact (Bool.and_eq_true _ _).mp ha |>.1
        refine ⟨storeWF_of_parts st.db _ _ hwf ?_, ?_, countersMatch_of_parts st.db _ _
          pid hpid h2 ?_ ?_⟩
        · intro l hl
          exact hwf.2.2 l ((List.eraseP_sublist st.db.likes).subset hl)
        · intro u' pid'
          show (((st.db.likes.eraseP
              (fun l => l.post_id == pid && l.username == u)).filter
              (fun l => l.post_id == pid' && l.username == u')).length) ≤ 1
          have hsub := (List.eraseP_sublist st.db.likes
            (p := fun l => l.post_id == pid && l.username == u)).filter
            (fun l => l.post_id == pid' && l.username == u')
          refine le_trans hsub.length_le ?_
          have := h1 u' pid'
          unfold countLikes at this
          exact this
        · intro q hq
          have hneg : ∀ a : LikePost,
              (a.post_id == pid && a.username == u) = true
                → (a.post_id == q) = false := by
            intro a ha
            have := himp a ha
            simp at this ⊢
            omega
          rw [filter_eraseP_of_neg _ _ _ hneg]
        · show post.no_of_likes - 1 = _
          rw [length_filter_eraseP_of_imp _ _ _ hmem himp]
          have hge := one_le_length_filter_of_imp _ _ _ hmem himp
          rw [hcnt]
          omega

/-- The Post row that `upload` inserts for session user `u`, image `img` and
caption `c`. -/
def freshPost (db : DB) (u img c : String) : Post :=
  { id := db.nextPostId, user := u, image := img, caption := c, no_of_likes := 0 }

/-- Inserting a fresh post with a zero counter preserves the store
invariant. -/
theorem inv_insert_fresh_post (db : DB) (u img c : String) (h : Inv db) :
    Inv { db with
          nextPostId := db.nextPostId + 1,
          posts := db.posts ++ [freshPost db u img c] } := by
  obtain ⟨⟨hnd, hlt, href⟩, h1, h2⟩ := h
  refine ⟨⟨?_, ?_, ?_⟩, ?_, ?_⟩
  · show ((db.posts ++ [freshPost db u img c]).map (fun p => p.id)).Nodup
    rw [List.map_append]
    refine List.Nodup.append hnd (List.nodup_singleton _) ?_
    intro a ha hb
    simp only [List.map_cons, List.map_nil, List.mem_singleton, freshPost] at hb
    subst hb
    exact absurd (hlt _ ha) (lt_irrefl _)
  · intro i hi2
    show i < db.nextPostId + 1
    rw [List.map_append] at hi2
    rcases List.mem_append.mp hi2 with h3 | h3
    · have := hlt i h3
      omega
    · simp only [List.map_cons, List.map_nil, List.mem_singleton, freshPost] at h3
      omega
  · intro l hl
    rw [List.map_append]
    exact List.mem_append_left _ (href l hl)
  · intro u' pid'
    exact h1 u' pid'
  · intro p hp
    rcases List.mem_append.mp hp with h3 | h3
    · exact h2 p h3
    · simp only [List.mem_singleton] at h3
      subst h3
      have hfil : db.likes.filter (fun l => l.post_id == db.nextPostId) = [] := by
        rw [List.filter_eq_nil_iff]
        intro l hl
        have h4 := hlt _ (href l hl)
        simp only [beq_iff_eq]
        omega
      show ((0 : Int))
          = ((db.likes.filter (fun l => l.post_id == db.nextPostId)).length : Int)
      rw [hfil]
      rfl

/-- Upload preserves the store invariant: the new post gets a fresh id and a
zero counter, and no existing Like record can reference it. -/
theorem upload_preserves_inv (st : St) (form : Option UploadForm)
    (h : Inv st.db) : Inv (upload st form).1.db := by
  cases hss : st.session with
  | none =>
    have he : (upload st form).1 = st := by simp [upload, hss]
    rw [he]
    exact h
  | some u =>
    cases form with
    | none =>
      have he : (upload st (none : Option UploadForm)).1 = st := by simp [upload, hss]
      rw [he]
      exact h
    | some f =>
      cases hi : f.image_upload with
      | none =>
        have he : (upload st (some f)).1 = st := by simp [upload, hss, hi]
        rw [he]
        exact h
      | some img =>
        have he : (upload st (some f)).1.db
            = { st.db with
                nextPostId := st.db.nextPostId + 1,
                posts := st.db.posts ++ [freshPost st.db u img f.caption] } := by
          simp [upload, hss, hi, freshPost]
        rw [he]
        exact inv_insert_fresh_post st.db u img f.caption h

/-- The initial state satisfies the store invariant. -/
theorem inv_st0 : Inv st0.db := by
  refine ⟨⟨?_, ?_, ?_⟩, ?_, ?_⟩
  · simp [st0]
  · intro i hi
    simp [st0] at hi
  · intro l hl
    simp [st0] at hl
  · intro u pid
    simp [countLikes, st0]
  · intro p hp
    simp [st0] at hp

/-- Every single request preserves the store invariant. -/
theorem step_preserves_inv {st st' : St} (h : Inv st.db) (hstep : Step st st') :
    Inv st'.db := by
  cases hstep with
  | rIndex => rw [index_fst]; exact h
  | rLike pid => exact like_preserves_inv st pid h
  | rSignup form =>
    exact inv_congr _ _ (signup_db_frame st form).1 (signup_db_frame st form).2.1
      (signup_db_frame st form).2.2 h
  | rSignin form => rw [signin_db]; exact h
  | rLogout => rw [logout_db]; exact h
  | rSettings form =>
    exact inv_congr _ _ (settings_db_frame st form).1 (settings_db_frame st form).2.1
      (settings_db_frame st form).2.2 h
  | rUpload form => exact upload_preserves_inv st form h

/-- The store invariant holds in every reachable state. -/
theorem reachable_inv (st : St) (h : Reachable st) : Inv st.db := by
  induction h with
  | init => exact inv_st0
  | step hr hstep ih => exact step_preserves_inv ih hstep

/-- C3: in every state reachable by sequential execution from the initial
state there is at most one Like record per (user, post) pair, and every
post's like counter equals the number of Like records referencing it. -/
theorem reachable_consistent (st : St) (h : Reachable st) :
    atMostOneLike st.db ∧ countersMatch st.db :=
  ⟨(reachable_inv st h).2.1, (reachable_inv st h).2.2⟩

/-- Witness: the consistency theorem applied at the initial state, whose
reachability is immediate. -/
theorem reachable_consistent_witness :
    atMostOneLike st0.db ∧ countersMatch st0.db :=
  reachable_consistent st0 Reachable.init

end SocialBook
